import Mathlib

/-!
Shallow embedding of the HTTP authentication-retry subsystem of
`twistedcaldav/util.py`: the RFC 2617 digest calculator (`calcHA1`,
`calcResponse`), the `WWW-Authenticate` challenge parsing loop and the
401-handling driver (`AuthorizedHTTPGetter.handleStatus_401`).

Python 2 byte strings are modelled as `List Nat` (byte values) where raw
hash digests flow, and as Lean `String` where the code manipulates header
text.  The two hash functions `md5` and `sha1` from `hashlib` are library
primitives, not code of this repository; they are taken as abstract
parameters `md5h sha1h : List Nat → List Nat`, so every theorem about
message construction holds for the real functions by instantiation.
Python exceptions are modelled with `Except PyErr`.
-/

set_option maxRecDepth 4096

/-- Python exception outcomes observable in this code.  `invalidInput` is the
explicit `TypeError` raised by `calcHA1` when `preHA1` is combined with
plaintext credentials (the spec's `InvalidInput` contract error);
`keyError` is a dictionary lookup failure (e.g. `algorithms[alg]`);
`valueError` is a failed tuple unpacking (`k, v = p.split('=', 1)` with no
`=`); `indexError` is `s[0]` on an empty string in `unq`; `typeError`
covers `m.update(None)` and `str.decode('hex')` failures. -/
inductive PyErr where
  | invalidInput
  | keyError (k : Option String)
  | valueError
  | indexError
  | typeError
  deriving Repr, DecidableEq

/-- Byte values of an ASCII string, the contents of a Python 2 `str`. -/
def bytes (s : String) : List Nat :=
  s.toList.map Char.toNat

/-- Lower-case hexadecimal digit character, as produced by
`str.encode('hex')` / `digest().encode('hex')`. -/
def hexDigit (n : Nat) : Char :=
  if n < 10 then Char.ofNat (48 + n) else Char.ofNat (87 + n)

/-- Lower-case hex encoding of a byte list, Python's `.encode('hex')`. -/
def hexEncode (b : List Nat) : String :=
  String.mk (b.foldr (fun x acc => hexDigit (x / 16 % 16) :: hexDigit (x % 16) :: acc) [])

/-- Value of one hex digit character, accepting both cases as Python's
`str.decode('hex')` does. -/
def hexVal (c : Char) : Option Nat :=
  if 48 ≤ c.toNat ∧ c.toNat ≤ 57 then some (c.toNat - 48)
  else if 97 ≤ c.toNat ∧ c.toNat ≤ 102 then some (c.toNat - 87)
  else if 65 ≤ c.toNat ∧ c.toNat ≤ 70 then some (c.toNat - 55)
  else none

/-- Hex decoding of a character list; odd length or a non-hex digit raises
(`TypeError` in Python 2's `str.decode('hex')`). -/
def hexDecodeList : List Char → Except PyErr (List Nat)
  | [] => .ok []
  | [_] => .error .typeError
  | a :: b :: rest =>
    match hexVal a, hexVal b with
    | some x, some y =>
      match hexDecodeList rest with
      | .ok t => .ok ((16 * x + y) :: t)
      | .error e => .error e
    | _, _ => .error .typeError

/-- Python's `s.decode('hex')`. -/
def hexDecode (s : String) : Except PyErr (List Nat) :=
  hexDecodeList s.toList

/-- Python truthiness of an optional string argument: `None` and the empty
string are falsy. -/
def truthy : Option String → Bool
  | none => false
  | some s => if s = "" then false else true

/-- Python `"%s" % v` rendering of an optional string: `None` prints as
the text `None`. -/
def fmt : Option String → String
  | none => "None"
  | some s => s

/-- The `algorithms` dictionary of `util.py`: `md5` and `md5-sess` map to
MD5, `sha` to SHA-1; any other key raises `KeyError`. -/
def algorithmsGet (md5h sha1h : List Nat → List Nat) : Option String → Except PyErr (List Nat → List Nat)
  | some "md5" => .ok md5h
  | some "md5-sess" => .ok md5h
  | some "sha" => .ok sha1h
  | k => .error (.keyError k)

/-- Base HA1 digest of `calcHA1`: either `Hash(user:realm:password)` under
the algorithm's hash, or the hex-decoded `preHA1`.  A `None` credential
fed to `m.update` raises `TypeError`; the `algorithms` lookup happens
first, as in the source. -/
def ha1Base (md5h sha1h : List Nat → List Nat) (alg u r p pre : Option String) : Except PyErr (List Nat) :=
  match pre with
  | some s => hexDecode s
  | none =>
    match algorithmsGet md5h sha1h alg with
    | .error e => .error e
    | .ok h =>
      match u, r, p with
      | some su, some sr, some sp =>
        .ok (h (bytes su ++ bytes ":" ++ bytes sr ++ bytes ":" ++ bytes sp))
      | _, _, _ => .error .typeError

/-- Session re-hash step of `calcHA1`: only for `md5-sess`, rehashes the
raw HA1 bytes with `:nonce:cnonce`. -/
def ha1Sess (md5h sha1h : List Nat → List Nat) (alg n c : Option String) (base : List Nat) : Except PyErr (List Nat) :=
  if alg = some "md5-sess" then
    match algorithmsGet md5h sha1h alg, n, c with
    | .error e, _, _ => .error e
    | .ok h, some sn, some sc =>
      .ok (h (base ++ bytes ":" ++ bytes sn ++ bytes ":" ++ bytes sc))
    | .ok _, _, _ => .error .typeError
  else .ok base

/-- Model of `calcHA1` (util.py lines 265-315).  Raises the contract
`TypeError` when `preHA1` is truthy together with a truthy username,
realm or password; otherwise computes the base HA1, applies the
`md5-sess` re-hash when selected, and hex-encodes the result. -/
def calcHA1 (md5h sha1h : List Nat → List Nat) (alg u r p n c pre : Option String) : Except PyErr String :=
  if truthy pre = true ∧ (truthy u = true ∨ truthy r = true ∨ truthy p = true) then
    .error .invalidInput
  else
    match ha1Base md5h sha1h alg u r p pre with
    | .error e => .error e
    | .ok base =>
      match ha1Sess md5h sha1h alg n c base with
      | .error e => .error e
      | .ok ha1 => .ok (hexEncode ha1)

/-- HA2 digest of `calcResponse`, hex-encoded: `Hash(method:uri)`, with
`:entityHash` appended when `qop == "auth-int"` (a `None` entity there
raises `TypeError` via `m.update(None)`). -/
def ha2Hash (h : List Nat → List Nat) (qop : Option String) (meth uri : String) (entity : Option String) : Except PyErr String :=
  if qop = some "auth-int" then
    match entity with
    | none => .error .typeError
    | some e => .ok (hexEncode (h (bytes meth ++ bytes ":" ++ bytes uri ++ bytes ":" ++ bytes e)))
  else .ok (hexEncode (h (bytes meth ++ bytes ":" ++ bytes uri)))

/-- Model of `calcResponse` (util.py lines 320-354).  Computes HA2, then
hashes `HA1:nonce:[nc:cnonce:qop:]HA2`, the middle part included only when
`nc`, `cnonce` and `qop` are all truthy, and hex-encodes the result. -/
def calcResponse (md5h sha1h : List Nat → List Nat) (HA1 : String) (algo nonce nc cnonce qop : Option String) (meth uri : String) (entity : Option String) : Except PyErr String :=
  match algorithmsGet md5h sha1h algo with
  | .error e => .error e
  | .ok h =>
    match ha2Hash h qop meth uri entity with
    | .error e => .error e
    | .ok HA2 =>
      match nonce with
      | none => .error .typeError
      | some sn =>
        let middle : List Nat :=
          if truthy nc = true ∧ truthy cnonce = true ∧ truthy qop = true then
            bytes (fmt nc) ++ bytes ":" ++ bytes (fmt cnonce) ++ bytes ":" ++ bytes (fmt qop) ++ bytes ":"
          else []
        .ok (hexEncode (h (bytes HA1 ++ bytes ":" ++ bytes sn ++ bytes ":" ++ middle ++ bytes HA2)))

/-- Python whitespace characters stripped by `str.strip()`. -/
def isPySpace (c : Char) : Bool :=
  c = ' ' || c = '\t' || c = '\n' || c = '\r' || c = '\x0b' || c = '\x0c'

/-- Python `s.strip()` on a character list. -/
def pyStrip (cl : List Char) : List Char :=
  ((cl.dropWhile isPySpace).reverse.dropWhile isPySpace).reverse

/-- Test that the first list starts with the second, Python's
`item.startswith(pat)` (an exact, case-sensitive character match). -/
def startsWithL : List Char → List Char → Bool
  | _, [] => true
  | [], _ :: _ => false
  | c :: rest, d :: pat => if c = d then startsWithL rest pat else false

/-- Accumulating pass of `splitOnChar`. -/
def splitOnCharGo (sep : Char) : List Char → List Char → List (List Char)
  | [], acc => [acc.reverse]
  | c :: rest, acc =>
    if c = sep then acc.reverse :: splitOnCharGo sep rest []
    else splitOnCharGo sep rest (c :: acc)

/-- Python `s.split(sep)` for a one-character separator: always yields at
least one piece, the empty string splitting to `[""]`. -/
def splitOnChar (sep : Char) (cl : List Char) : List (List Char) :=
  splitOnCharGo sep cl []

/-- The local `unq` helper of `handleStatus_401`: removes one outer pair of
double quotes when the first and last characters are both quotes; indexing
an empty string raises `IndexError`. -/
def unq (cl : List Char) : Except PyErr (List Char) :=
  match cl with
  | [] => .error .indexError
  | c :: rest =>
    if c = '"' ∧ rest.getLastD c = '"' then
      .ok (((c :: rest).drop 1).dropLast)
    else .ok (c :: rest)

/-- Python `p.split('=', 1)` followed by unpacking into `(k, v)`: splits on
the first `=`; no `=` raises `ValueError`. -/
def splitEq1 : List Char → Except PyErr (List Char × List Char)
  | [] => .error .valueError
  | c :: rest =>
    if c = '=' then .ok ([], rest)
    else
      match splitEq1 rest with
      | .error e => .error e
      | .ok kv => .ok (c :: kv.1, kv.2)

/-- Dictionary insertion with key overwrite, the effect of
`details[k] = v` on the `details` dict modelled as an association list. -/
def dinsert (d : List (String × String)) (k v : String) : List (String × String) :=
  match d with
  | [] => [(k, v)]
  | (k0, v0) :: rest => if k0 = k then (k, v) :: rest else (k0, v0) :: dinsert rest k v

/-- Digest-directive parsing of one challenge item with the `"digest "`
marker already removed: split on commas, split each part on the first
`=`, strip, unquote, and insert into the accumulated directive dict.
The source evaluates every `p.split('=', 1)` in a list comprehension
before inserting, so a malformed pair raises before any insertion; since
an exception aborts the whole handler, performing the splits first is
observationally the order of the source. -/
def parseDigestItem (details : List (String × String)) (cl : List Char) : Except PyErr (List (String × String)) :=
  match (splitOnChar ',' cl).mapM splitEq1 with
  | .error e => .error e
  | .ok pairs =>
    pairs.foldlM (fun d kv =>
      match unq (pyStrip kv.2) with
      | .error e => .error e
      | .ok v => .ok (dinsert d (String.mk (pyStrip kv.1)) (String.mk v))) details

/-- Result of the challenge-scanning loop of `handleStatus_401`. -/
structure ParseResult where
  basicAvailable : Bool
  digestAvailable : Bool
  details : List (String × String)
  deriving Repr, DecidableEq

/-- One iteration of the challenge-scanning loop: set the basic flag when
the item starts with the exact text `"basic "`, and on the exact text
`"digest "` set the digest flag and parse the remainder into the
directive dict. -/
def challengeStep (pr : ParseResult) (item : String) : Except PyErr ParseResult :=
  let pr1 := if startsWithL item.toList "basic ".toList = true then { pr with basicAvailable := true } else pr
  if startsWithL item.toList "digest ".toList = true then
    match parseDigestItem pr1.details (item.toList.drop 7) with
    | .error e => .error e
    | .ok d => .ok { pr1 with digestAvailable := true, details := d }
  else .ok pr1

/-- Recursion of the challenge-scanning loop over the header items. -/
def parseItemsGo (pr : ParseResult) : List String → Except PyErr ParseResult
  | [] => .ok pr
  | item :: rest =>
    match challengeStep pr item with
    | .error e => .error e
    | .ok pr' => parseItemsGo pr' rest

/-- The challenge-scanning loop of `handleStatus_401` (util.py lines
382-397) over the list of `WWW-Authenticate` header values. -/
def parseItems (items : List String) : Except PyErr ParseResult :=
  parseItemsGo ⟨false, false, []⟩ items

/-- Base64 alphabet character. -/
def b64Char (n : Nat) : Char :=
  if n < 26 then Char.ofNat (65 + n)
  else if n < 52 then Char.ofNat (97 + (n - 26))
  else if n < 62 then Char.ofNat (48 + (n - 52))
  else if n = 62 then '+' else '/'

/-- Base64 encoding by 3-byte groups with `=` padding. -/
def base64Chunks : List Nat → List Char
  | [] => []
  | [a] =>
    let w := a * 65536
    [b64Char (w / 262144 % 64), b64Char (w / 4096 % 64), '=', '=']
  | [a, b] =>
    let w := a * 65536 + b * 256
    [b64Char (w / 262144 % 64), b64Char (w / 4096 % 64), b64Char (w / 64 % 64), '=']
  | a :: b :: c :: rest =>
    let w := a * 65536 + b * 256 + c
    b64Char (w / 262144 % 64) :: b64Char (w / 4096 % 64) :: b64Char (w / 64 % 64) :: b64Char (w % 64) :: base64Chunks rest

/-- Net effect of `base64.encodestring(s)` followed by removing every
newline, as the basic branch of the source does: plain base64. -/
def base64Encode (l : List Nat) : String :=
  String.mk (base64Chunks l)

/-- State of the `HTTPClientFactory` that `handleStatus_401` reads and
writes: the optional `username` attribute (absent when no credentials are
configured), `password`, the ad hoc `retried` flag (attribute absent
modelled as `false`), and the request `method` and `url`.  Host, port and
transport scheme only select the reconnect endpoint and are not modelled. -/
structure Factory where
  username : Option String
  password : String
  retried : Bool
  method : String
  url : String
  deriving Repr, DecidableEq

/-- Observable outcome of one `handleStatus_401` call: `errback msg`
fires the deferred with `Unauthorized(msg)`; `resend auth` reconnects
with the given `Authorization` header value; `crash e` is an uncaught
Python exception escaping the handler. -/
inductive H401Outcome where
  | errback (msg : String)
  | resend (auth : String)
  | crash (e : PyErr)
  deriving Repr, DecidableEq

/-- Header text of the source's qop-present `Digest` format string:
`Digest username="U", realm="R", nonce="N", uri="URI", response=RESP,
algorithm=ALG, cnonce="C", qop=QOP, nc=NC`. -/
def digestHeaderQop (user rl nn uri resp algv cn qv ncv : String) : String :=
  "Digest " ++ ("username=\"" ++ user ++ "\", realm=\"" ++ rl
    ++ "\", nonce=\"" ++ nn ++ "\", uri=\"" ++ uri
    ++ "\", response=" ++ resp ++ ", algorithm=" ++ algv
    ++ ", cnonce=\"" ++ cn ++ "\", qop=" ++ qv ++ ", nc=" ++ ncv)

/-- Header text of the source's no-qop `Digest` format string:
`Digest username="U", realm="R", nonce="N", uri="URI", response=RESP,
algorithm=ALG`. -/
def digestHeaderBase (user rl nn uri resp algv : String) : String :=
  "Digest " ++ ("username=\"" ++ user ++ "\", realm=\"" ++ rl
    ++ "\", nonce=\"" ++ nn ++ "\", uri=\"" ++ uri
    ++ "\", response=" ++ resp ++ ", algorithm=" ++ algv)

/-- Digest branch of `handleStatus_401` (util.py lines 402-452): compute
`calcHA1`/`calcResponse` from the parsed directives (cnonce, nc, qop all
taken from the server challenge dict) and build the `Authorization`
header text, appending the cnonce/qop/nc fields when the challenge's
`qop` is truthy; `None` values render as the text `None` via `%s`. -/
def digestRetry (md5h sha1h : List Nat → List Nat) (user pswd meth url : String) (details : List (String × String)) : Except PyErr String :=
  match calcHA1 md5h sha1h (List.lookup "algorithm" details) (some user)
      (List.lookup "realm" details) (some pswd)
      (List.lookup "nonce" details) (List.lookup "cnonce" details) none with
  | .error e => .error e
  | .ok ha1 =>
    match calcResponse md5h sha1h ha1 (List.lookup "algorithm" details)
        (List.lookup "nonce" details) (List.lookup "nc" details)
        (List.lookup "cnonce" details) (List.lookup "qop" details)
        meth url none with
    | .error e => .error e
    | .ok digest =>
      if truthy (List.lookup "qop" details) = true then
        .ok (digestHeaderQop user (fmt (List.lookup "realm" details))
          (fmt (List.lookup "nonce" details)) url digest
          (fmt (List.lookup "algorithm" details))
          (fmt (List.lookup "cnonce" details))
          (fmt (List.lookup "qop" details))
          (fmt (List.lookup "nc" details)))
      else
        .ok (digestHeaderBase user (fmt (List.lookup "realm" details))
          (fmt (List.lookup "nonce" details)) url digest
          (fmt (List.lookup "algorithm" details)))

/-- Error message of the unusable-challenge errback in the source. -/
def mailGatewayMsg : String :=
  "Mail gateway not able to process reply; calendar server returned 401 and doesn\x27t support basic or digest"

/-- Scheme selection and retry construction of `handleStatus_401` after
the credential and retry checks passed: prefer the digest branch when the
digest flag is set and the directive dict is non-empty, fall back to the
basic branch, and otherwise errback with the unusable-challenge message. -/
def respond401 (md5h sha1h : List Nat → List Nat) (user pswd meth url : String) (wwwauth : List String) : H401Outcome :=
  match parseItems wwwauth with
  | .error e => .crash e
  | .ok pr =>
    if pr.digestAvailable = true ∧ pr.details ≠ [] then
      match digestRetry md5h sha1h user pswd meth url pr.details with
      | .error e => .crash e
      | .ok hdr => .resend hdr
    else if pr.basicAvailable = true then
      .resend ("Basic " ++ base64Encode (bytes (user ++ ":" ++ pswd)))
    else .errback mailGatewayMsg

/-- Model of `AuthorizedHTTPGetter.handleStatus_401` (util.py lines
366-489): with no `username` attribute the deferred errbacks with
`Authentication required`; with the `retried` flag already set it
errbacks with `Could not authenticate user <username> with calendar
server`; otherwise the flag is set and the challenge decides the retry.
Returns the outcome and the factory state after the call. -/
def handleStatus_401 (md5h sha1h : List Nat → List Nat) (f : Factory) (wwwauth : List String) : H401Outcome × Factory :=
  match f.username with
  | none => (.errback "Authentication required", f)
  | some user =>
    if f.retried = true then
      (.errback ("Could not authenticate user " ++ user ++ " with calendar server"), f)
    else
      (respond401 md5h sha1h user f.password f.method f.url wwwauth, { f with retried := true })


lemma hexDecodeList_err : ∀ (cl : List Char) (e : PyErr), hexDecodeList cl = .error e → e = .typeError
  | [], _ => by intro h; cases h
  | [_], _ => fun h => (Except.error.inj h).symm
  | a :: b :: rest, e => by
    intro h
    unfold hexDecodeList at h
    cases ha : hexVal a <;> rw [ha] at h
    · exact (Except.error.inj h).symm
    · cases hb2 : hexVal b <;> rw [hb2] at h
      · exact (Except.error.inj h).symm
      · cases hd : hexDecodeList rest <;> rw [hd] at h
        · exact ((Except.error.inj h).symm).trans (hexDecodeList_err rest _ hd)
        · cases h

lemma algorithmsGet_err (md5h sha1h : List Nat → List Nat) (k : Option String) (e : PyErr) :
    algorithmsGet md5h sha1h k = .error e → e = .keyError k := by
  unfold algorithmsGet
  split <;> intro h <;> (cases h ; all_goals rfl)

lemma algorithmsGet_ne_invalid (md5h sha1h : List Nat → List Nat) (k : Option String) :
    algorithmsGet md5h sha1h k ≠ .error .invalidInput :=
  fun h => by cases algorithmsGet_err md5h sha1h k .invalidInput h

lemma ha1Base_err (md5h sha1h : List Nat → List Nat) (alg u r p pre : Option String) (e : PyErr) :
    ha1Base md5h sha1h alg u r p pre = .error e → e ≠ .invalidInput := by
  intro h he
  subst he
  unfold ha1Base at h
  cases pre with
  | some s => cases hexDecodeList_err s.toList .invalidInput h
  | none =>
    cases hg : algorithmsGet md5h sha1h alg with
    | error e' =>
      rw [hg] at h
      have he' : e' = .invalidInput := Except.error.inj h
      subst he'
      exact algorithmsGet_ne_invalid md5h sha1h alg hg
    | ok hf =>
      rw [hg] at h
      cases u <;> cases r <;> cases p <;> simp at h

lemma ha1Sess_err (md5h sha1h : List Nat → List Nat) (alg n c : Option String) (base : List Nat) (e : PyErr) :
    ha1Sess md5h sha1h alg n c base = .error e → e ≠ .invalidInput := by
  intro h he
  subst he
  unfold ha1Sess at h
  by_cases halg : alg = some "md5-sess"
  · rw [if_pos halg] at h
    cases hg : algorithmsGet md5h sha1h alg with
    | error e' =>
      rw [hg] at h
      have he' : e' = .invalidInput := Except.error.inj h
      subst he'
      exact algorithmsGet_ne_invalid md5h sha1h alg hg
    | ok hf =>
      rw [hg] at h
      cases n <;> cases c <;> simp at h
  · rw [if_neg halg] at h
    cases h

/-- C7: `calcHA1` fails with the `InvalidInput` contract error exactly when
`preHA1` is supplied (a truthy argument in Python: neither `None` nor the
empty string) together with a supplied username, realm or password; on
every other input, whatever else happens, that contract error is never
raised. -/
theorem calcHA1_contract_iff (md5h sha1h : List Nat → List Nat) (alg u r p n c pre : Option String) :
    calcHA1 md5h sha1h alg u r p n c pre = .error .invalidInput ↔
      (truthy pre = true ∧ (truthy u = true ∨ truthy r = true ∨ truthy p = true)) := by
  unfold calcHA1
  by_cases hcond : truthy pre = true ∧ (truthy u = true ∨ truthy r = true ∨ truthy p = true)
  · simp [hcond]
  · rw [if_neg hcond]
    constructor
    · intro h
      exfalso
      cases hb : ha1Base md5h sha1h alg u r p pre with
      | error e =>
        rw [hb] at h
        exact ha1Base_err md5h sha1h alg u r p pre e hb (Except.error.inj h)
      | ok base =>
        rw [hb] at h
        dsimp only at h
        cases hs : ha1Sess md5h sha1h alg n c base with
        | error e =>
          rw [hs] at h
          exact ha1Sess_err md5h sha1h alg n c base e hs (Except.error.inj h)
        | ok ha1 =>
          rw [hs] at h
          cases h
    · intro hx
      exact absurd hx hcond

/-- C2: on valid plaintext inputs `calcHA1` returns the lower-case hex
digest of `username:realm:password` under the hash selected by the
algorithm name (`md5` and `md5-sess` use MD5, `sha` uses SHA-1); for
`md5-sess` it additionally re-hashes the raw HA1 bytes with
`:nonce:cnonce`, a step skipped for plain `md5` and `sha` (for which the
nonce and cnonce arguments are ignored entirely); when `preHA1` is given,
its hex-decoded bytes are the base HA1. -/
theorem calcHA1_spec (md5h sha1h : List Nat → List Nat) (u r p n c : String) (nn cc : Option String) (pre : String) :
    (calcHA1 md5h sha1h (some "md5") (some u) (some r) (some p) nn cc none
      = .ok (hexEncode (md5h (bytes u ++ bytes ":" ++ bytes r ++ bytes ":" ++ bytes p))))
    ∧ (calcHA1 md5h sha1h (some "sha") (some u) (some r) (some p) nn cc none
      = .ok (hexEncode (sha1h (bytes u ++ bytes ":" ++ bytes r ++ bytes ":" ++ bytes p))))
    ∧ (calcHA1 md5h sha1h (some "md5-sess") (some u) (some r) (some p) (some n) (some c) none
      = .ok (hexEncode (md5h (md5h (bytes u ++ bytes ":" ++ bytes r ++ bytes ":" ++ bytes p)
          ++ bytes ":" ++ bytes n ++ bytes ":" ++ bytes c))))
    ∧ (calcHA1 md5h sha1h (some "md5") none none none nn cc (some pre)
      = (hexDecode pre).map hexEncode)
    ∧ (calcHA1 md5h sha1h (some "md5-sess") none none none (some n) (some c) (some pre)
      = (hexDecode pre).map (fun hb =>
          hexEncode (md5h (hb ++ bytes ":" ++ bytes n ++ bytes ":" ++ bytes c)))) := by
  refine ⟨?_, ?_, ?_, ?_, ?_⟩
  · simp [calcHA1, ha1Base, ha1Sess, algorithmsGet, truthy]
  · simp [calcHA1, ha1Base, ha1Sess, algorithmsGet, truthy]
  · simp [calcHA1, ha1Base, ha1Sess, algorithmsGet, truthy]
  · unfold calcHA1
    rw [if_neg (by simp [truthy])]
    unfold ha1Base
    cases hd : hexDecode pre with
    | error e => simp [hd, Except.map]
    | ok b => simp [hd, Except.map, ha1Sess]
  · unfold calcHA1
    rw [if_neg (by simp [truthy])]
    unfold ha1Base
    cases hd : hexDecode pre with
    | error e => simp [hd, Except.map]
    | ok b => simp [hd, Except.map, ha1Sess, algorithmsGet]

/-- C3: `calcResponse` builds HA2 as `Hash(method:digestUri)`, with
`:entityHash` appended exactly when qop is `auth-int`; when nonceCount,
cnonce and qop are all present (truthy) the response is
`Hash(HA1:nonce:nc:cnonce:qop:HA2_hex)`, and otherwise the legacy
RFC 2069 form `Hash(HA1:nonce:HA2_hex)`; HA2 is hex-encoded before reuse
and the result is hex-encoded. -/
theorem calcResponse_spec (md5h sha1h : List Nat → List Nat) (algo : Option String)
    (h : List Nat → List Nat) (HA1 n ncv cn q meth uri ent : String)
    (hAlg : algorithmsGet md5h sha1h algo = .ok h) :
    (q ≠ "auth-int" → q ≠ "" → ncv ≠ "" → cn ≠ "" →
      calcResponse md5h sha1h HA1 algo (some n) (some ncv) (some cn) (some q) meth uri (some ent)
        = .ok (hexEncode (h (bytes HA1 ++ bytes ":" ++ bytes n ++ bytes ":"
            ++ (bytes ncv ++ bytes ":" ++ bytes cn ++ bytes ":" ++ bytes q ++ bytes ":")
            ++ bytes (hexEncode (h (bytes meth ++ bytes ":" ++ bytes uri)))))))
    ∧ (ncv ≠ "" → cn ≠ "" →
      calcResponse md5h sha1h HA1 algo (some n) (some ncv) (some cn) (some "auth-int") meth uri (some ent)
        = .ok (hexEncode (h (bytes HA1 ++ bytes ":" ++ bytes n ++ bytes ":"
            ++ (bytes ncv ++ bytes ":" ++ bytes cn ++ bytes ":" ++ bytes "auth-int" ++ bytes ":")
            ++ bytes (hexEncode (h (bytes meth ++ bytes ":" ++ bytes uri ++ bytes ":" ++ bytes ent)))))))
    ∧ (∀ cno qo : Option String, qo ≠ some "auth-int" →
      calcResponse md5h sha1h HA1 algo (some n) none cno qo meth uri (some ent)
        = .ok (hexEncode (h (bytes HA1 ++ bytes ":" ++ bytes n ++ bytes ":"
            ++ bytes (hexEncode (h (bytes meth ++ bytes ":" ++ bytes uri))))))) := by
  refine ⟨?_, ?_, ?_⟩
  · intro hq hq2 hnc hcn
    simp [calcResponse, hAlg, ha2Hash, truthy, fmt, hq, hq2, hnc, hcn]
  · intro hnc hcn
    simp [calcResponse, hAlg, ha2Hash, truthy, fmt, hnc, hcn]
  · intro cno qo hqo
    simp [calcResponse, hAlg, ha2Hash, truthy, fmt, hqo]

/-- Hash stand-in used by witnesses: the identity on the message bytes. -/
def idh (l : List Nat) : List Nat := l

/-- Witness for C3 at a concrete input, hypotheses discharged. -/
theorem calcResponse_spec_witness :
    calcResponse idh idh "ha1x" (some "md5") (some "n") (some "01") (some "cn") (some "auth") "GET" "/x" (some "ent")
      = .ok (hexEncode (idh (bytes "ha1x" ++ bytes ":" ++ bytes "n" ++ bytes ":"
          ++ (bytes "01" ++ bytes ":" ++ bytes "cn" ++ bytes ":" ++ bytes "auth" ++ bytes ":")
          ++ bytes (hexEncode (idh (bytes "GET" ++ bytes ":" ++ bytes "/x")))))) :=
  (calcResponse_spec idh idh (some "md5") idh "ha1x" "n" "01" "cn" "auth" "GET" "/x" "ent" rfl).1
    (by decide) (by decide) (by decide) (by decide)


lemma challengeStep_flags (pr pr' : ParseResult) (item : String) (h : challengeStep pr item = .ok pr') :
    pr'.basicAvailable = (pr.basicAvailable || startsWithL item.toList "basic ".toList)
      ∧ pr'.digestAvailable = (pr.digestAvailable || startsWithL item.toList "digest ".toList) := by
  unfold challengeStep at h
  cases hbv : startsWithL item.toList "basic ".toList <;>
    cases hdv : startsWithL item.toList "digest ".toList <;>
      rw [hbv, hdv] at h <;> simp only [if_true, if_false] at h <;> simp at h ⊢
  case false.false => subst h; exact ⟨rfl, rfl⟩
  case true.false => subst h; exact ⟨rfl, rfl⟩
  case false.true =>
    cases hp : parseDigestItem pr.details (List.drop 7 item.data) with
    | error e => rw [hp] at h; cases h
    | ok d => rw [hp] at h; cases h; exact ⟨rfl, rfl⟩
  case true.true =>
    cases hp : parseDigestItem pr.details (List.drop 7 item.data) with
    | error e => rw [hp] at h; cases h
    | ok d => rw [hp] at h; cases h; exact ⟨rfl, rfl⟩

lemma parseItemsGo_flags : ∀ (items : List String) (pr0 pr : ParseResult),
    parseItemsGo pr0 items = .ok pr →
    pr.basicAvailable = (pr0.basicAvailable || items.any (fun i => startsWithL i.toList "basic ".toList))
      ∧ pr.digestAvailable = (pr0.digestAvailable || items.any (fun i => startsWithL i.toList "digest ".toList))
  | [], pr0, pr => by
    intro h
    cases h
    simp
  | item :: rest, pr0, pr => by
    intro h
    unfold parseItemsGo at h
    cases hs : challengeStep pr0 item with
    | error e => rw [hs] at h; cases h
    | ok pr1 =>
      rw [hs] at h
      have hf := challengeStep_flags pr0 pr1 item hs
      have ih := parseItemsGo_flags rest pr1 pr h
      simp [List.any_cons, ih.1, ih.2, hf.1, hf.2, Bool.or_assoc]

/-- C4 counterexample: the scheme-token match of the challenge-scanning
loop is NOT case-insensitive.  A challenge whose scheme token is `Digest`,
`DIGEST` or `Basic` is not recognized at all (both flags stay false and no
directives are parsed), while the exact lower-case forms are recognized. -/
theorem parseItems_case_sensitivity_cex :
    parseItems ["Digest realm=\"test\""] = .ok ⟨false, false, []⟩
    ∧ parseItems ["DIGEST realm=\"test\""] = .ok ⟨false, false, []⟩
    ∧ parseItems ["Basic realm=\"test\""] = .ok ⟨false, false, []⟩
    ∧ parseItems ["digest realm=\"test\""] = .ok ⟨false, true, [("realm", "test")]⟩
    ∧ parseItems ["basic realm=\"test\""] = .ok ⟨true, false, []⟩ :=
  ⟨rfl, rfl, rfl, rfl, rfl⟩

/-- C4 amended: the scheme match is an exact, case-sensitive byte match.
Whenever the scanning loop succeeds, the basic flag is set exactly when
some header value starts with the seven bytes of `basic ` (lower case),
and the digest flag exactly when some value starts with `digest ` (lower
case); any other case variant of a scheme token is not recognized. -/
theorem parseItems_scheme_flags (items : List String) (pr : ParseResult)
    (h : parseItems items = .ok pr) :
    pr.basicAvailable = items.any (fun i => startsWithL i.toList "basic ".toList)
      ∧ pr.digestAvailable = items.any (fun i => startsWithL i.toList "digest ".toList) := by
  have hg := parseItemsGo_flags items ⟨false, false, []⟩ pr h
  simpa using hg

/-- Witness for the amended C4 at a concrete header list. -/
theorem parseItems_scheme_flags_witness :
    (⟨true, false, ([] : List (String × String))⟩ : ParseResult).basicAvailable
        = ["basic x", "Digest y=z"].any (fun i => startsWithL i.toList "basic ".toList)
      ∧ (⟨true, false, ([] : List (String × String))⟩ : ParseResult).digestAvailable
        = ["basic x", "Digest y=z"].any (fun i => startsWithL i.toList "digest ".toList) :=
  parseItems_scheme_flags ["basic x", "Digest y=z"] ⟨true, false, []⟩ rfl

/-- C1: at most one authentication retry per request cycle.  Handling a
401 with the retried flag already set errbacks with `Could not
authenticate user <username> with calendar server`, leaves the factory
untouched and never resends, regardless of the challenge contents; and
handling a first 401 with configured credentials always leaves the
retried flag set (resending happens only from that flag-clear state). -/
theorem handleStatus_401_single_retry (md5h sha1h : List Nat → List Nat) (u p meth url : String) (w : List String) :
    (handleStatus_401 md5h sha1h ⟨some u, p, true, meth, url⟩ w
      = (.errback ("Could not authenticate user " ++ u ++ " with calendar server"), ⟨some u, p, true, meth, url⟩))
    ∧ ((handleStatus_401 md5h sha1h ⟨some u, p, false, meth, url⟩ w).2.retried = true)
    ∧ (∀ b f', handleStatus_401 md5h sha1h ⟨some u, p, true, meth, url⟩ w ≠ (.resend b, f')) := by
  refine ⟨rfl, rfl, ?_⟩
  intro b f' hcontra
  exact H401Outcome.noConfusion (congrArg Prod.fst hcontra)

/-- C5: a 401 with no configured username errbacks immediately with
`Authentication required`; the factory (and with it the retried flag) is
unchanged and no retry of any kind is attempted. -/
theorem handleStatus_401_no_credentials (md5h sha1h : List Nat → List Nat) (p : String) (r : Bool) (meth url : String) (w : List String) :
    handleStatus_401 md5h sha1h ⟨none, p, r, meth, url⟩ w
      = (.errback "Authentication required", ⟨none, p, r, meth, url⟩) := rfl

lemma str_data_append (a b : String) : (a ++ b).data = a.data ++ b.data := rfl

lemma str_append_assoc (a b c : String) : (a ++ b) ++ c = a ++ (b ++ c) := by
  cases a with
  | mk da =>
    cases b with
    | mk db =>
      cases c with
      | mk dc =>
        show String.mk ((da ++ db) ++ dc) = String.mk (da ++ (db ++ dc))
        rw [List.append_assoc]

lemma digest_ne_basic (a b : String) : "Digest " ++ a ≠ "Basic " ++ b := by
  intro h
  have hd := congrArg String.data h
  rw [str_data_append, str_data_append] at hd
  simp at hd



lemma digestHeaderQop_form (user rl nn uri resp algv cn qv ncv : String) :
    ∃ rest, digestHeaderQop user rl nn uri resp algv cn qv ncv = "Digest " ++ rest :=
  ⟨_, rfl⟩

lemma digestHeaderBase_form (user rl nn uri resp algv : String) :
    ∃ rest, digestHeaderBase user rl nn uri resp algv = "Digest " ++ rest :=
  ⟨_, rfl⟩

lemma digestRetry_ok_form (md5h sha1h : List Nat → List Nat) (u p meth url : String)
    (details : List (String × String)) (hdr : String)
    (h : digestRetry md5h sha1h u p meth url details = .ok hdr) :
    ∃ rest, hdr = "Digest " ++ rest := by
  unfold digestRetry at h
  split at h
  · cases h
  · split at h
    · cases h
    · split at h
      · cases h
        exact digestHeaderQop_form _ _ _ _ _ _ _ _ _
      · cases h
        exact digestHeaderBase_form _ _ _ _ _ _

/-- C8: scheme preference of the retry.  Whenever the challenge parse
succeeds and Digest is offered and parseable (digest flag set, non-empty
directive dict), any resent `Authorization` header is a Digest header and
never a Basic one; and a Basic header is resent only when Digest is not
offered or not parseable while Basic is offered. -/
theorem digest_over_basic (md5h sha1h : List Nat → List Nat) (u p meth url : String)
    (w : List String) (pr : ParseResult) (hp : parseItems w = .ok pr) :
    (pr.digestAvailable = true → pr.details ≠ [] →
      ∀ hdr, respond401 md5h sha1h u p meth url w = .resend hdr →
        (∃ rest, hdr = "Digest " ++ rest) ∧ ∀ rest2, hdr ≠ "Basic " ++ rest2)
    ∧ (∀ hdr rest2, respond401 md5h sha1h u p meth url w = .resend hdr →
        hdr = "Basic " ++ rest2 →
        ¬(pr.digestAvailable = true ∧ pr.details ≠ []) ∧ pr.basicAvailable = true) := by
  constructor
  · intro hd hne hdr hres
    unfold respond401 at hres
    rw [hp] at hres
    dsimp only at hres
    rw [if_pos ⟨hd, hne⟩] at hres
    cases hq : digestRetry md5h sha1h u p meth url pr.details with
    | error e => rw [hq] at hres; cases hres
    | ok v =>
      rw [hq] at hres
      cases hres
      obtain ⟨rest, hrest⟩ := digestRetry_ok_form md5h sha1h u p meth url pr.details _ hq
      exact ⟨⟨rest, hrest⟩, fun rest2 hb => digest_ne_basic rest rest2 (hrest.symm.trans hb)⟩
  · intro hdr rest2 hres hb
    unfold respond401 at hres
    rw [hp] at hres
    dsimp only at hres
    by_cases hc : pr.digestAvailable = true ∧ pr.details ≠ []
    · rw [if_pos hc] at hres
      cases hq : digestRetry md5h sha1h u p meth url pr.details with
      | error e => rw [hq] at hres; cases hres
      | ok v =>
        rw [hq] at hres
        cases hres
        obtain ⟨rest, hrest⟩ := digestRetry_ok_form md5h sha1h u p meth url pr.details _ hq
        exact absurd (hrest.symm.trans hb) (digest_ne_basic rest rest2)
    · rw [if_neg hc] at hres
      by_cases hbv : pr.basicAvailable = true
      · exact ⟨hc, hbv⟩
      · rw [if_neg hbv] at hres
        cases hres

/-- Hash stand-in used by closed examples: the empty digest. -/
def nilh (_ : List Nat) : List Nat := []

/-- Hash stand-in used by closed examples: digest of the message length
and byte sum, so the response depends on the whole message. -/
def sumh (l : List Nat) : List Nat :=
  [l.length % 256, l.foldl (fun a b => a + b) 0 % 256]

/-- Witness for C8: a challenge offering both `basic` and a parseable
`digest` yields a Digest retry header and never a Basic one. -/
theorem digest_over_basic_witness :
    (∃ rest, ("Digest username=\"u\", realm=\"r\", nonce=\"n\", uri=\"/\", response=, algorithm=md5, cnonce=\"None\", qop=auth, nc=None" : String) = "Digest " ++ rest)
    ∧ ∀ rest2, ("Digest username=\"u\", realm=\"r\", nonce=\"n\", uri=\"/\", response=, algorithm=md5, cnonce=\"None\", qop=auth, nc=None" : String) ≠ "Basic " ++ rest2 :=
  (digest_over_basic nilh nilh "u" "pw" "GET" "/"
      ["basic foo", "digest realm=\"r\", nonce=\"n\", qop=\"auth\", algorithm=md5"]
      ⟨true, true, [("realm", "r"), ("nonce", "n"), ("qop", "auth"), ("algorithm", "md5")]⟩
      rfl).1 rfl (by decide) _ rfl

lemma calcHA1_alg_none (md5h sha1h : List Nat → List Nat) (u r p n c : Option String) :
    calcHA1 md5h sha1h none u r p n c none = .error (.keyError none) := by
  unfold calcHA1
  rw [if_neg (by simp [truthy])]
  simp [ha1Base, algorithmsGet]

/-- C6 counterexample: with credentials configured and retry budget
available, a Digest-only challenge that parses but lacks the required
directives does NOT produce the unusable-scheme `Unauthorized` errback;
the handler enters the digest branch and dies with an uncaught `KeyError`
(here: `algorithms[None]`, since no `algorithm` directive was sent). -/
theorem respond401_missing_directives_cex :
    respond401 nilh nilh "u" "p" "GET" "/" ["digest realm=\"r\""] = .crash (.keyError none)
    ∧ respond401 nilh nilh "u" "p" "GET" "/" ["digest realm=\"r\""] ≠ .errback mailGatewayMsg :=
  ⟨rfl, fun h => H401Outcome.noConfusion h⟩

/-- C6 amended: the unusable-scheme `Unauthorized` errback (source text
`Mail gateway not able to process reply; ...`) is produced exactly when
the challenge offers neither Basic nor parseable Digest.  When Digest is
offered with a non-empty directive dict but the `algorithm` directive is
missing, the handler instead proceeds into the digest branch and crashes
with an uncaught `KeyError` on `algorithms[None]`; no retry and no
`Unauthorized` errback occur there. -/
theorem respond401_unusable_scheme (md5h sha1h : List Nat → List Nat) (u p meth url : String)
    (w : List String) (pr : ParseResult) (hp : parseItems w = .ok pr) :
    (¬(pr.digestAvailable = true ∧ pr.details ≠ []) → pr.basicAvailable = false →
      respond401 md5h sha1h u p meth url w = .errback mailGatewayMsg)
    ∧ (pr.digestAvailable = true → pr.details ≠ [] →
      List.lookup "algorithm" pr.details = none →
      respond401 md5h sha1h u p meth url w = .crash (.keyError none)) := by
  constructor
  · intro hc hb
    unfold respond401
    rw [hp]
    dsimp only
    rw [if_neg hc, if_neg (by simp [hb])]
  · intro hd hne halg
    unfold respond401
    rw [hp]
    dsimp only
    rw [if_pos ⟨hd, hne⟩]
    unfold digestRetry
    rw [halg, calcHA1_alg_none]

/-- Witness for the amended C6 at a concrete unusable challenge. -/
theorem respond401_unusable_scheme_witness :
    respond401 nilh nilh "u" "p" "GET" "/" ["bogus challenge"] = .errback mailGatewayMsg :=
  (respond401_unusable_scheme nilh nilh "u" "p" "GET" "/" ["bogus challenge"]
    ⟨false, false, []⟩ rfl).1 (by simp) rfl

/-- C9 counterexample: parsing the claim's challenge (which carries
`algorithm=MD5`, upper case) yields exactly the four quoted directives,
but reconstructing the `Authorization` header from fixed credentials then
CRASHES with `KeyError` on `algorithms["MD5"]` — the algorithm table has
only the lower-case keys `md5`, `md5-sess`, `sha` — so no header at all
is produced, and in particular none byte-identical to a reference
string.  (The hash stand-in is irrelevant: the lookup fails before any
hashing.) -/
theorem digest_roundtrip_cex :
    parseItems ["digest realm=\"test\", nonce=\"abc123\", qop=\"auth\", algorithm=MD5"]
      = .ok ⟨false, true, [("realm", "test"), ("nonce", "abc123"), ("qop", "auth"), ("algorithm", "MD5")]⟩
    ∧ respond401 sumh sumh "user" "password" "GET" "/principals/"
        ["digest realm=\"test\", nonce=\"abc123\", qop=\"auth\", algorithm=MD5"]
      = .crash (.keyError (some "MD5")) :=
  ⟨rfl, rfl⟩

/-- C9 amended: the parse half of the round-trip holds as claimed —
whitespace trimmed and exactly one outer pair of double quotes removed,
the directive mapping holding exactly the four keys and values — but the
reconstruction half only goes through with a lower-case `algorithm=md5`
directive; then the emitted header is byte-identical to the reference
string below, in which `response=1025` is the stand-in hash of the
hand-built legacy message `HA1_hex:abc123:HA2_hex` (third conjunct), and
the absent cnonce and nc directives surface as the literal texts
`cnonce="None"` and `nc=None`. -/
theorem digest_roundtrip_amended :
    parseItems ["digest realm=\"test\", nonce=\"abc123\", qop=\"auth\", algorithm=MD5"]
      = .ok ⟨false, true, [("realm", "test"), ("nonce", "abc123"), ("qop", "auth"), ("algorithm", "MD5")]⟩
    ∧ respond401 sumh sumh "user" "password" "GET" "/principals/"
        ["digest realm=\"test\", nonce=\"abc123\", qop=\"auth\", algorithm=md5"]
      = .resend "Digest username=\"user\", realm=\"test\", nonce=\"abc123\", uri=\"/principals/\", response=1025, algorithm=md5, cnonce=\"None\", qop=auth, nc=None"
    ∧ hexEncode (sumh (bytes (hexEncode (sumh (bytes "user:test:password")))
        ++ bytes ":abc123:" ++ bytes (hexEncode (sumh (bytes "GET:/principals/"))))) = "1025" :=
  ⟨rfl, rfl, rfl⟩

/-- C10 counterexample: the claim's universal — every Digest challenge
with a qop directive but no cnonce directive gets a legacy-form response
hash AND a header carrying the cnonce/qop/nc fields — fails inside that
universal.  With a `qop=""` directive (empty value) the handler emits
the BASE header, without the cnonce, qop and nc fields; and with
`qop="auth-int"` the handler crashes with `TypeError`
(`m.update(pszHEntity)` on the `None` entity in the HA2 step), so no
response hash of any form is computed and no header is emitted. -/
theorem digestRetry_qop_no_cnonce_cex :
    respond401 sumh sumh "user" "pw" "GET" "/"
        ["digest realm=\"r\", nonce=\"n\", qop=\"\", algorithm=md5"]
      = .resend "Digest username=\"user\", realm=\"r\", nonce=\"n\", uri=\"/\", response=0bb8, algorithm=md5"
    ∧ respond401 sumh sumh "user" "pw" "GET" "/"
        ["digest realm=\"r\", nonce=\"n\", qop=\"auth-int\", algorithm=md5"]
      = .crash .typeError :=
  ⟨rfl, rfl⟩

/-- C10 amended: cnonce and nc are taken from the parsed server
challenge, never generated by the client.  For a Digest challenge (here
with `algorithm=md5` and realm/nonce present) that carries a qop
directive but no cnonce directive, the 401 handler behaves by cases on
the qop value: (a) qop truthy and not `auth-int` — the response is the
legacy (no-qop) message form `Hash(HA1_hex:nonce:HA2_hex)` and the header
appends `cnonce="None"`, `qop=<q>` and `nc=<nc directive or None>`;
(b) qop the empty string — the same legacy response, but the base header
WITHOUT the cnonce/qop/nc fields; (c) qop `auth-int` — an uncaught
`TypeError` (hashing the `None` entity), no response and no header. -/
theorem digestRetry_qop_no_cnonce_cases (md5h sha1h : List Nat → List Nat) (u p meth url : String)
    (details : List (String × String)) (rl nn : String)
    (halg : List.lookup "algorithm" details = some "md5")
    (hrl : List.lookup "realm" details = some rl)
    (hn : List.lookup "nonce" details = some nn)
    (hc : List.lookup "cnonce" details = none) :
    (∀ (q : String) (nco : Option String),
      List.lookup "qop" details = some q → List.lookup "nc" details = nco →
      q ≠ "" → q ≠ "auth-int" →
      digestRetry md5h sha1h u p meth url details
        = .ok (digestHeaderQop u rl nn url
            (hexEncode (md5h (bytes (hexEncode (md5h (bytes u ++ bytes ":" ++ bytes rl ++ bytes ":" ++ bytes p)))
              ++ bytes ":" ++ bytes nn ++ bytes ":"
              ++ bytes (hexEncode (md5h (bytes meth ++ bytes ":" ++ bytes url))))))
            "md5" "None" q (fmt nco)))
    ∧ (List.lookup "qop" details = some "" →
      digestRetry md5h sha1h u p meth url details
        = .ok (digestHeaderBase u rl nn url
            (hexEncode (md5h (bytes (hexEncode (md5h (bytes u ++ bytes ":" ++ bytes rl ++ bytes ":" ++ bytes p)))
              ++ bytes ":" ++ bytes nn ++ bytes ":"
              ++ bytes (hexEncode (md5h (bytes meth ++ bytes ":" ++ bytes url))))))
            "md5"))
    ∧ (List.lookup "qop" details = some "auth-int" →
      digestRetry md5h sha1h u p meth url details = .error .typeError) := by
  refine ⟨?_, ?_, ?_⟩
  · intro q nco hq hnco hq1 hq2
    unfold digestRetry
    rw [halg, hrl, hn, hq, hc, hnco]
    simp [calcHA1, ha1Base, ha1Sess, algorithmsGet, truthy, calcResponse, ha2Hash, fmt, hq1, hq2]
  · intro hq
    unfold digestRetry
    rw [halg, hrl, hn, hq, hc]
    simp [calcHA1, ha1Base, ha1Sess, algorithmsGet, truthy, calcResponse, ha2Hash, fmt]
  · intro hq
    unfold digestRetry
    rw [halg, hrl, hn, hq, hc]
    simp [calcHA1, ha1Base, ha1Sess, algorithmsGet, truthy, calcResponse, ha2Hash, fmt]

/-- Witness for the amended C10 at concrete challenge dicts: one per qop
case (truthy `auth`, empty string, `auth-int`), hypotheses discharged. -/
theorem digestRetry_qop_no_cnonce_cases_witness :
    digestRetry sumh sumh "user" "password" "GET" "/principals/"
        [("realm", "test"), ("nonce", "abc123"), ("qop", "auth"), ("algorithm", "md5")]
      = .ok (digestHeaderQop "user" "test" "abc123" "/principals/"
          (hexEncode (sumh (bytes (hexEncode (sumh (bytes "user" ++ bytes ":" ++ bytes "test" ++ bytes ":" ++ bytes "password")))
            ++ bytes ":" ++ bytes "abc123" ++ bytes ":"
            ++ bytes (hexEncode (sumh (bytes "GET" ++ bytes ":" ++ bytes "/principals/"))))))
          "md5" "None" "auth" (fmt none))
    ∧ digestRetry sumh sumh "user" "password" "GET" "/principals/"
        [("realm", "test"), ("nonce", "abc123"), ("qop", ""), ("algorithm", "md5")]
      = .ok (digestHeaderBase "user" "test" "abc123" "/principals/"
          (hexEncode (sumh (bytes (hexEncode (sumh (bytes "user" ++ bytes ":" ++ bytes "test" ++ bytes ":" ++ bytes "password")))
            ++ bytes ":" ++ bytes "abc123" ++ bytes ":"
            ++ bytes (hexEncode (sumh (bytes "GET" ++ bytes ":" ++ bytes "/principals/"))))))
          "md5")
    ∧ digestRetry sumh sumh "user" "password" "GET" "/principals/"
        [("realm", "test"), ("nonce", "abc123"), ("qop", "auth-int"), ("algorithm", "md5")]
      = .error .typeError :=
  ⟨(digestRetry_qop_no_cnonce_cases sumh sumh "user" "password" "GET" "/principals/"
      [("realm", "test"), ("nonce", "abc123"), ("qop", "auth"), ("algorithm", "md5")]
      "test" "abc123" rfl rfl rfl rfl).1 "auth" none rfl rfl (by decide) (by decide),
   (digestRetry_qop_no_cnonce_cases sumh sumh "user" "password" "GET" "/principals/"
      [("realm", "test"), ("nonce", "abc123"), ("qop", ""), ("algorithm", "md5")]
      "test" "abc123" rfl rfl rfl rfl).2.1 rfl,
   (digestRetry_qop_no_cnonce_cases sumh sumh "user" "password" "GET" "/principals/"
      [("realm", "test"), ("nonce", "abc123"), ("qop", "auth-int"), ("algorithm", "md5")]
      "test" "abc123" rfl rfl rfl rfl).2.2 rfl⟩

/-- Witness for C1 at a concrete already-retried factory. -/
theorem handleStatus_401_single_retry_witness :
    handleStatus_401 nilh nilh ⟨some "bob", "pw", true, "GET", "/"⟩ ["basic x"]
      = (.errback ("Could not authenticate user " ++ "bob" ++ " with calendar server"),
         ⟨some "bob", "pw", true, "GET", "/"⟩) :=
  (handleStatus_401_single_retry nilh nilh "bob" "pw" "GET" "/" ["basic x"]).1
